import Mathlib

/-!
Shallow embedding of `src/securityratconnector/securityratconnector.py`
(class `SecurityRatConnector`): the generic CRUD dispatch methods
(`get`, `post`, `put`, `delete`), the response cache (`getCached`),
and the identifier-bearing per-entity helpers.

Modelling conventions:
* JSON values (the decoded `req.json()` bodies and the Python dicts built
  by the helpers) are the inductive `Val`; Python `None` is `Val.vnull`.
* The Python dict held in `self.cache` is an association list
  `List (String × Val)`; `dictSet` is Python dict item assignment
  (overwrite in place, else append) and `dictGet` is keyed lookup.
* The remote server is an oracle `Nat → Response`: the n-th network call
  issued by the connector receives response `O n`.  `ConnState.calls`
  counts issued calls and `ConnState.log` records each outgoing request
  (method, endpoint, attached `X-CSRF-TOKEN` header value, body).
* `ConnState.cookieToken` is `self.session.cookies[CSRF-TOKEN]` (the
  session cookie jar, which a response may rotate via `newToken`);
  `ConnState.headersToken` is the `X-CSRF-TOKEN` slot of the shared
  `self.headers` dict, which `get`/`put`/`delete` overwrite from the
  cookie jar before each dispatch (`post` builds fresh local headers).
* A Python `raise` is `Except.error`; the generic dispatch exception
  message `Request unsuccessfully: %s` is modelled structurally as
  `SRError.requestError code? content?` — `code?` is the status code when
  the format argument was `req.status_code` (GET/PUT/DELETE) and
  `content?` is the raw content when it was `req.content` (POST).
  `ValueError` raised on a missing identifier is `SRError.invalidArgument`.
-/

namespace SecurityRatConnector

/-- A decoded JSON value / Python object as used by the connector. -/
inductive Val : Type where
  | vnull : Val
  | vbool : Bool → Val
  | vint : Int → Val
  | vstr : String → Val
  | vlist : List Val → Val
  | vdict : List (String × Val) → Val

/-- Python `v is None`. -/
def Val.isNull : Val → Bool
  | Val.vnull => true
  | _ => false

/-- Keyed lookup in a Python dict (association list). -/
def dictGet (d : List (String × Val)) (k : String) : Option Val :=
  match d with
  | [] => none
  | (k1, v1) :: rest => if k1 = k then some v1 else dictGet rest k

/-- Python dict item assignment `d[k] = v`: overwrite the existing entry
in place, otherwise append a new entry. -/
def dictSet (d : List (String × Val)) (k : String) (v : Val) : List (String × Val) :=
  match d with
  | [] => [(k, v)]
  | (k1, v1) :: rest => if k1 = k then (k, v) :: rest else (k1, v1) :: dictSet rest k v

/-- Python `k in d.keys()`. -/
def dictHasKey (d : List (String × Val)) (k : String) : Bool :=
  (dictGet d k).isSome

/-- HTTP method of a dispatched request. -/
inductive Method : Type where
  | GET : Method
  | POST : Method
  | PUT : Method
  | DELETE : Method

/-- One outgoing request as put on the wire: its method, the endpoint
string appended to the API base URL, the `X-CSRF-TOKEN` header value
attached to it, and the JSON body (for POST/PUT). -/
structure Request : Type where
  method : Method
  endpoint : String
  token : String
  reqBody : Option Val

/-- One server response: HTTP status code, decoded JSON body
(`req.json()`), raw content (`req.content`), and an optional rotated
CSRF token the session cookie jar picks up from the response. -/
structure Response : Type where
  status : Nat
  body : Val
  content : String
  newToken : Option String

/-- The remote server: the n-th network call receives response `O n`. -/
def Oracle : Type := Nat → Response

/-- The mutable state of one `SecurityRatConnector` instance (after the
login collaborator has established a CSRF token in the cookie jar):
the `cached` flag fixed at construction, the `self.cache` dict, the
session cookie jar token, the `X-CSRF-TOKEN` slot of the shared
`self.headers` dict, and the instrumentation (`calls` issued so far and
the `log` of outgoing requests, most recent first). -/
structure ConnState : Type where
  cached : Bool
  cache : List (String × Val)
  cookieToken : String
  headersToken : Option String
  calls : Nat
  log : List Request

/-- Errors raised by the connector: `requestError code? content?` models
the dispatch exception (`code?` set when the message carries
`req.status_code`, `content?` when it carries `req.content`);
`invalidArgument` models the `ValueError` raised on a `None` identifier. -/
inductive SRError : Type where
  | requestError : Option Nat → Option String → SRError
  | invalidArgument : SRError

/-- Issue one network call: record the outgoing request, consume the next
oracle response (updating the cookie jar if the response rotates the
token) and bump the call counter. -/
def issue (O : Oracle) (m : Method) (endpoint : String) (tok : String)
    (b : Option Val) (s : ConnState) : ConnState :=
  { s with
    calls := s.calls + 1,
    log := Request.mk m endpoint tok b :: s.log,
    cookieToken := ((O s.calls).newToken).getD s.cookieToken }

/-- `SecurityRatConnector.get`: refresh `self.headers[X-CSRF-TOKEN]` from
the cookie jar, issue the GET, raise on status ≥ 400 (message carries the
status code), otherwise return the decoded body. -/
def get (O : Oracle) (endpoint : String) (s : ConnState) :
    Except SRError Val × ConnState :=
  let s1 := issue O Method.GET endpoint s.cookieToken none
    { s with headersToken := some s.cookieToken }
  if 400 ≤ (O s.calls).status then
    (Except.error (SRError.requestError (some ((O s.calls).status)) none), s1)
  else
    (Except.ok ((O s.calls).body), s1)

/-- `SecurityRatConnector.put`: refresh the shared header token, issue the
PUT, raise on status ≥ 400 (message carries the status code); on success,
if caching is on and the endpoint is a cache key, set that entry to
`None`, and return the decoded body. -/
def put (O : Oracle) (endpoint : String) (data : Val) (s : ConnState) :
    Except SRError Val × ConnState :=
  let s1 := issue O Method.PUT endpoint s.cookieToken (some data)
    { s with headersToken := some s.cookieToken }
  if 400 ≤ (O s.calls).status then
    (Except.error (SRError.requestError (some ((O s.calls).status)) none), s1)
  else if s1.cached && dictHasKey s1.cache endpoint then
    (Except.ok ((O s.calls).body), { s1 with cache := dictSet s1.cache endpoint Val.vnull })
  else
    (Except.ok ((O s.calls).body), s1)

/-- `SecurityRatConnector.delete`: refresh the shared header token, issue
the DELETE, raise on status ≥ 400 (message carries the status code); on
success, if caching is on and the endpoint is a cache key, set that entry
to `None`, and return `True` without parsing a body. -/
def delete (O : Oracle) (endpoint : String) (s : ConnState) :
    Except SRError Bool × ConnState :=
  let s1 := issue O Method.DELETE endpoint s.cookieToken none
    { s with headersToken := some s.cookieToken }
  if 400 ≤ (O s.calls).status then
    (Except.error (SRError.requestError (some ((O s.calls).status)) none), s1)
  else if s1.cached && dictHasKey s1.cache endpoint then
    (Except.ok true, { s1 with cache := dictSet s1.cache endpoint Val.vnull })
  else
    (Except.ok true, s1)

/-- `SecurityRatConnector.post`: build fresh local headers with the
cookie-jar token (the shared `self.headers` is untouched), issue the
POST, raise on status ≥ 400 (message carries `req.content`, not the
status code); on success, if caching is on and the endpoint is a cache
key, set that entry to `None`, and return the decoded body. -/
def post (O : Oracle) (endpoint : String) (data : Val) (s : ConnState) :
    Except SRError Val × ConnState :=
  let s1 := issue O Method.POST endpoint s.cookieToken (some data) s
  if 400 ≤ (O s.calls).status then
    (Except.error (SRError.requestError none (some ((O s.calls).content))), s1)
  else if s1.cached && dictHasKey s1.cache endpoint then
    (Except.ok ((O s.calls).body), { s1 with cache := dictSet s1.cache endpoint Val.vnull })
  else
    (Except.ok ((O s.calls).body), s1)

/-- The `else` branch of `getCached`: `self.cache[cacheId] = self.get(cacheId)`
followed by returning the stored value — in Python the right-hand side is
evaluated first, so a raising `get` leaves the cache unwritten. -/
def getCachedMiss (O : Oracle) (cacheId : String) (s : ConnState) :
    Except SRError Val × ConnState :=
  match get O cacheId s with
  | (Except.ok w, s1) => (Except.ok w, { s1 with cache := dictSet s1.cache cacheId w })
  | (Except.error e, s1) => (Except.error e, s1)

/-- `SecurityRatConnector.getCached`: with caching on, return the cached
value when the key is present and its value `is not None`, otherwise
fetch, store and return; with caching off, always delegate to `get`. -/
def getCached (O : Oracle) (cacheId : String) (s : ConnState) :
    Except SRError Val × ConnState :=
  if s.cached then
    match dictGet s.cache cacheId with
    | some v => if v.isNull then getCachedMiss O cacheId s else (Except.ok v, s)
    | none => getCachedMiss O cacheId s
  else
    get O cacheId s

/-- An entry for endpoint `e` is usable by `getCached` exactly when the
key is present and its value is not `None`. -/
def cachePresent (cache : List (String × Val)) (e : String) : Bool :=
  match dictGet cache e with
  | some v => !v.isNull
  | none => false


/-- Python `data[k] = v` on a decoded JSON value: acts on a dict, leaves
any other value unchanged (the helpers only ever apply it to the dicts
the item endpoints return). -/
def valSet (v : Val) (k : String) (x : Val) : Val :=
  match v with
  | Val.vdict d => Val.vdict (dictSet d k x)
  | other => other

/-- The `if p is not None: data[k] = f(p)` pattern of the update helpers. -/
def applyOpt {α : Type} (p : Option α) (f : α → Val) (k : String) (v : Val) : Val :=
  match p with
  | some x => valSet v k (f x)
  | none => v

/-- The `[{ id: i } for i in xs]` shaping of mapped-identifier lists. -/
def idList (xs : List Int) : Val :=
  Val.vlist (xs.map (fun i => Val.vdict [("id", Val.vint i)]))

/-- `getCollectionCategory`: `ValueError` on a `None` id, else a single-item GET. -/
def getCollectionCategory (O : Oracle) (i : Option Int) (s : ConnState) :
    Except SRError Val × ConnState :=
  match i with
  | none => (Except.error SRError.invalidArgument, s)
  | some n => get O ("collectionCategorys/" ++ toString n) s

/-- `getCollectionInstance`: `ValueError` on a `None` id, else a single-item GET. -/
def getCollectionInstance (O : Oracle) (i : Option Int) (s : ConnState) :
    Except SRError Val × ConnState :=
  match i with
  | none => (Except.error SRError.invalidArgument, s)
  | some n => get O ("collectionInstances/" ++ toString n) s

/-- `getTagCategory`: `ValueError` on a `None` id, else a single-item GET. -/
def getTagCategory (O : Oracle) (i : Option Int) (s : ConnState) :
    Except SRError Val × ConnState :=
  match i with
  | none => (Except.error SRError.invalidArgument, s)
  | some n => get O ("tagCategorys/" ++ toString n) s

/-- `getTagInstance`: `ValueError` on a `None` id, else a single-item GET. -/
def getTagInstance (O : Oracle) (i : Option Int) (s : ConnState) :
    Except SRError Val × ConnState :=
  match i with
  | none => (Except.error SRError.invalidArgument, s)
  | some n => get O ("tagInstances/" ++ toString n) s

/-- `getRequirementCategory`: `ValueError` on a `None` id, else a single-item GET. -/
def getRequirementCategory (O : Oracle) (i : Option Int) (s : ConnState) :
    Except SRError Val × ConnState :=
  match i with
  | none => (Except.error SRError.invalidArgument, s)
  | some n => get O ("reqCategorys/" ++ toString n) s

/-- `getRequirementSkeleton`: `ValueError` on a `None` id, else a single-item GET. -/
def getRequirementSkeleton (O : Oracle) (i : Option Int) (s : ConnState) :
    Except SRError Val × ConnState :=
  match i with
  | none => (Except.error SRError.invalidArgument, s)
  | some n => get O ("requirementSkeletons/" ++ toString n) s

/-- `getOptColumnType`: `ValueError` on a `None` id, else a single-item GET. -/
def getOptColumnType (O : Oracle) (i : Option Int) (s : ConnState) :
    Except SRError Val × ConnState :=
  match i with
  | none => (Except.error SRError.invalidArgument, s)
  | some n => get O ("optColumnTypes/" ++ toString n) s

/-- `getOptColumn`: `ValueError` on a `None` id, else a single-item GET. -/
def getOptColumn (O : Oracle) (i : Option Int) (s : ConnState) :
    Except SRError Val × ConnState :=
  match i with
  | none => (Except.error SRError.invalidArgument, s)
  | some n => get O ("optColumns/" ++ toString n) s

/-- `getOptColumnContent`: `ValueError` on a `None` id, else a single-item GET. -/
def getOptColumnContent (O : Oracle) (i : Option Int) (s : ConnState) :
    Except SRError Val × ConnState :=
  match i with
  | none => (Except.error SRError.invalidArgument, s)
  | some n => get O ("optColumnContents/" ++ toString n) s

/-- `getProjectType`: `ValueError` on a `None` id, else a single-item GET. -/
def getProjectType (O : Oracle) (i : Option Int) (s : ConnState) :
    Except SRError Val × ConnState :=
  match i with
  | none => (Except.error SRError.invalidArgument, s)
  | some n => get O ("projectTypes/" ++ toString n) s

/-- `getStatusColumn`: `ValueError` on a `None` id, else a single-item GET. -/
def getStatusColumn (O : Oracle) (i : Option Int) (s : ConnState) :
    Except SRError Val × ConnState :=
  match i with
  | none => (Except.error SRError.invalidArgument, s)
  | some n => get O ("statusColumns/" ++ toString n) s

/-- `getAlternativeInstance`: `ValueError` on a `None` id, else a single-item GET. -/
def getAlternativeInstance (O : Oracle) (i : Option Int) (s : ConnState) :
    Except SRError Val × ConnState :=
  match i with
  | none => (Except.error SRError.invalidArgument, s)
  | some n => get O ("alternativeInstances/" ++ toString n) s

/-- `deleteCollectionCategory`: `ValueError` on a `None` id, else a single-item DELETE. -/
def deleteCollectionCategory (O : Oracle) (i : Option Int) (s : ConnState) :
    Except SRError Bool × ConnState :=
  match i with
  | none => (Except.error SRError.invalidArgument, s)
  | some n => delete O ("collectionCategorys/" ++ toString n) s

/-- `deleteCollectionInstance`: `ValueError` on a `None` id, else a single-item DELETE. -/
def deleteCollectionInstance (O : Oracle) (i : Option Int) (s : ConnState) :
    Except SRError Bool × ConnState :=
  match i with
  | none => (Except.error SRError.invalidArgument, s)
  | some n => delete O ("collectionInstances/" ++ toString n) s

/-- `deleteTagCategory`: `ValueError` on a `None` id, else a single-item DELETE. -/
def deleteTagCategory (O : Oracle) (i : Option Int) (s : ConnState) :
    Except SRError Bool × ConnState :=
  match i with
  | none => (Except.error SRError.invalidArgument, s)
  | some n => delete O ("tagCategorys/" ++ toString n) s

/-- `deleteTagInstance`: `ValueError` on a `None` id, else a single-item DELETE. -/
def deleteTagInstance (O : Oracle) (i : Option Int) (s : ConnState) :
    Except SRError Bool × ConnState :=
  match i with
  | none => (Except.error SRError.invalidArgument, s)
  | some n => delete O ("tagInstances/" ++ toString n) s

/-- `deleteRequirementCategory`: `ValueError` on a `None` id, else a single-item DELETE. -/
def deleteRequirementCategory (O : Oracle) (i : Option Int) (s : ConnState) :
    Except SRError Bool × ConnState :=
  match i with
  | none => (Except.error SRError.invalidArgument, s)
  | some n => delete O ("reqCategorys/" ++ toString n) s

/-- `deleteRequirementSkeleton`: `ValueError` on a `None` id, else a single-item DELETE. -/
def deleteRequirementSkeleton (O : Oracle) (i : Option Int) (s : ConnState) :
    Except SRError Bool × ConnState :=
  match i with
  | none => (Except.error SRError.invalidArgument, s)
  | some n => delete O ("requirementSkeletons/" ++ toString n) s

/-- `deleteOptColumnType`: `ValueError` on a `None` id, else a single-item DELETE. -/
def deleteOptColumnType (O : Oracle) (i : Option Int) (s : ConnState) :
    Except SRError Bool × ConnState :=
  match i with
  | none => (Except.error SRError.invalidArgument, s)
  | some n => delete O ("optColumnTypes/" ++ toString n) s

/-- `deleteOptColumn`: `ValueError` on a `None` id, else a single-item DELETE. -/
def deleteOptColumn (O : Oracle) (i : Option Int) (s : ConnState) :
    Except SRError Bool × ConnState :=
  match i with
  | none => (Except.error SRError.invalidArgument, s)
  | some n => delete O ("optColumns/" ++ toString n) s

/-- `deleteOptColumnContent`: `ValueError` on a `None` id, else a single-item DELETE. -/
def deleteOptColumnContent (O : Oracle) (i : Option Int) (s : ConnState) :
    Except SRError Bool × ConnState :=
  match i with
  | none => (Except.error SRError.invalidArgument, s)
  | some n => delete O ("optColumnContents/" ++ toString n) s

/-- `deleteProjectType`: `ValueError` on a `None` id, else a single-item DELETE. -/
def deleteProjectType (O : Oracle) (i : Option Int) (s : ConnState) :
    Except SRError Bool × ConnState :=
  match i with
  | none => (Except.error SRError.invalidArgument, s)
  | some n => delete O ("projectTypes/" ++ toString n) s

/-- The single-field `{ id: n }` reference dicts built by the update helpers. -/
def idRef (n : Int) : Val :=
  Val.vdict [("id", Val.vint n)]

/-- `updateCollectionCategory`: `ValueError` on a `None` id, else fetch the
record, overwrite `name`, `description`, `showOrder`, `active` when the
parameter is not `None`, and PUT the merged record to `collectionCategorys`. -/
def updateCollectionCategory (O : Oracle) (i : Option Int) (name : Option String)
    (description : Option String) (showOrder : Option Int) (active : Option Bool)
    (s : ConnState) : Except SRError Val × ConnState :=
  match i with
  | none => (Except.error SRError.invalidArgument, s)
  | some n =>
    match getCollectionCategory O (some n) s with
    | (Except.error e, s1) => (Except.error e, s1)
    | (Except.ok d0, s1) =>
      let d1 := applyOpt name Val.vstr "name" d0
      let d2 := applyOpt description Val.vstr "description" d1
      let d3 := applyOpt showOrder Val.vint "showOrder" d2
      let d4 := applyOpt active Val.vbool "active" d3
      put O "collectionCategorys" d4 s1

/-- `updateCollectionInstance`: fetch, overwrite `name`, `description`,
`showOrder`, `active`, `collectionCategory` (as `{ id }`) when provided,
PUT to `collectionInstances`. -/
def updateCollectionInstance (O : Oracle) (i : Option Int) (name : Option String)
    (description : Option String) (collectionCategoryId : Option Int)
    (showOrder : Option Int) (active : Option Bool) (s : ConnState) :
    Except SRError Val × ConnState :=
  match i with
  | none => (Except.error SRError.invalidArgument, s)
  | some n =>
    match getCollectionInstance O (some n) s with
    | (Except.error e, s1) => (Except.error e, s1)
    | (Except.ok d0, s1) =>
      let d1 := applyOpt name Val.vstr "name" d0
      let d2 := applyOpt description Val.vstr "description" d1
      let d3 := applyOpt showOrder Val.vint "showOrder" d2
      let d4 := applyOpt active Val.vbool "active" d3
      let d5 := applyOpt collectionCategoryId idRef "collectionCategory" d4
      put O "collectionInstances" d5 s1

/-- `updateTagCategory`: fetch, overwrite `name`, `description`,
`showOrder`, `active` when provided, PUT to `tagCategorys`. -/
def updateTagCategory (O : Oracle) (i : Option Int) (name : Option String)
    (description : Option String) (showOrder : Option Int) (active : Option Bool)
    (s : ConnState) : Except SRError Val × ConnState :=
  match i with
  | none => (Except.error SRError.invalidArgument, s)
  | some n =>
    match getTagCategory O (some n) s with
    | (Except.error e, s1) => (Except.error e, s1)
    | (Except.ok d0, s1) =>
      let d1 := applyOpt name Val.vstr "name" d0
      let d2 := applyOpt description Val.vstr "description" d1
      let d3 := applyOpt showOrder Val.vint "showOrder" d2
      let d4 := applyOpt active Val.vbool "active" d3
      put O "tagCategorys" d4 s1

/-- `updateTagInstance`: fetch, overwrite `name`, `description`,
`showOrder`, `active`, `tagCategory` (as `{ id }`) when provided, PUT to
`tagInstances`. -/
def updateTagInstance (O : Oracle) (i : Option Int) (name : Option String)
    (description : Option String) (tagCategoryId : Option Int)
    (showOrder : Option Int) (active : Option Bool) (s : ConnState) :
    Except SRError Val × ConnState :=
  match i with
  | none => (Except.error SRError.invalidArgument, s)
  | some n =>
    match getTagInstance O (some n) s with
    | (Except.error e, s1) => (Except.error e, s1)
    | (Except.ok d0, s1) =>
      let d1 := applyOpt name Val.vstr "name" d0
      let d2 := applyOpt description Val.vstr "description" d1
      let d3 := applyOpt showOrder Val.vint "showOrder" d2
      let d4 := applyOpt active Val.vbool "active" d3
      let d5 := applyOpt tagCategoryId idRef "tagCategory" d4
      put O "tagInstances" d5 s1

/-- `updateRequirementCategory`: fetch, overwrite `name`, `description`,
`showOrder`, `active`, `shortcut` when provided, PUT to `reqCategorys`. -/
def updateRequirementCategory (O : Oracle) (i : Option Int) (name : Option String)
    (shortcut : Option String) (description : Option String)
    (showOrder : Option Int) (active : Option Bool) (s : ConnState) :
    Except SRError Val × ConnState :=
  match i with
  | none => (Except.error SRError.invalidArgument, s)
  | some n =>
    match getRequirementCategory O (some n) s with
    | (Except.error e, s1) => (Except.error e, s1)
    | (Except.ok d0, s1) =>
      let d1 := applyOpt name Val.vstr "name" d0
      let d2 := applyOpt description Val.vstr "description" d1
      let d3 := applyOpt showOrder Val.vint "showOrder" d2
      let d4 := applyOpt active Val.vbool "active" d3
      let d5 := applyOpt shortcut Val.vstr "shortcut" d4
      put O "reqCategorys" d5 s1

/-- `updateRequirementSkeleton`: fetch, overwrite `description`,
`showOrder`, `active`, `shortName`, `reqCategory` (as `{ id }`), the
three mapped-identifier lists (as `[{ id }]`), and `universalId` when
provided, PUT to `requirementSkeletons`. -/
def updateRequirementSkeleton (O : Oracle) (i : Option Int)
    (shortName : Option String) (description : Option String)
    (requirementCategory : Option Int) (collectionInstances : Option (List Int))
    (tagInstances : Option (List Int)) (projectTypes : Option (List Int))
    (showOrder : Option Int) (active : Option Bool) (universalId : Option String)
    (s : ConnState) : Except SRError Val × ConnState :=
  match i with
  | none => (Except.error SRError.invalidArgument, s)
  | some n =>
    match getRequirementSkeleton O (some n) s with
    | (Except.error e, s1) => (Except.error e, s1)
    | (Except.ok d0, s1) =>
      let d1 := applyOpt description Val.vstr "description" d0
      let d2 := applyOpt showOrder Val.vint "showOrder" d1
      let d3 := applyOpt active Val.vbool "active" d2
      let d4 := applyOpt shortName Val.vstr "shortName" d3
      let d5 := applyOpt requirementCategory idRef "reqCategory" d4
      let d6 := applyOpt collectionInstances idList "collectionInstances" d5
      let d7 := applyOpt tagInstances idList "tagInstances" d6
      let d8 := applyOpt projectTypes idList "projectTypes" d7
      let d9 := applyOpt universalId Val.vstr "universalId" d8
      put O "requirementSkeletons" d9 s1

/-- `updateOptColumnType`: fetch, overwrite `name`, `description` when
provided, PUT to `optColumnTypes`. -/
def updateOptColumnType (O : Oracle) (i : Option Int) (name : Option String)
    (description : Option String) (s : ConnState) :
    Except SRError Val × ConnState :=
  match i with
  | none => (Except.error SRError.invalidArgument, s)
  | some n =>
    match getOptColumnType O (some n) s with
    | (Except.error e, s1) => (Except.error e, s1)
    | (Except.ok d0, s1) =>
      let d1 := applyOpt name Val.vstr "name" d0
      let d2 := applyOpt description Val.vstr "description" d1
      put O "optColumnTypes" d2 s1

/-- `updateOptColumn`: fetch, overwrite `name`, `description`,
`showOrder`, `active`, `optColumnType` (as `{ id }`), `isVisibleByDefault`
when provided, PUT to `optColumns`. -/
def updateOptColumn (O : Oracle) (i : Option Int) (name : Option String)
    (description : Option String) (optColumnTypeId : Option Int)
    (showOrder : Option Int) (active : Option Bool)
    (isVisibleByDefault : Option Bool) (s : ConnState) :
    Except SRError Val × ConnState :=
  match i with
  | none => (Except.error SRError.invalidArgument, s)
  | some n =>
    match getOptColumn O (some n) s with
    | (Except.error e, s1) => (Except.error e, s1)
    | (Except.ok d0, s1) =>
      let d1 := applyOpt name Val.vstr "name" d0
      let d2 := applyOpt description Val.vstr "description" d1
      let d3 := applyOpt showOrder Val.vint "showOrder" d2
      let d4 := applyOpt active Val.vbool "active" d3
      let d5 := applyOpt optColumnTypeId idRef "optColumnType" d4
      let d6 := applyOpt isVisibleByDefault Val.vbool "isVisibleByDefault" d5
      put O "optColumns" d6 s1

/-- `updateOptColumnContent`: fetch, overwrite `content`, `optColumn` and
`requirementSkeleton` (as `{ id }`) when provided, PUT to
`optColumnContents`. -/
def updateOptColumnContent (O : Oracle) (i : Option Int) (content : Option String)
    (optColumnId : Option Int) (requirementSkeletonId : Option Int)
    (s : ConnState) : Except SRError Val × ConnState :=
  match i with
  | none => (Except.error SRError.invalidArgument, s)
  | some n =>
    match getOptColumnContent O (some n) s with
    | (Except.error e, s1) => (Except.error e, s1)
    | (Except.ok d0, s1) =>
      let d1 := applyOpt content Val.vstr "content" d0
      let d2 := applyOpt optColumnId idRef "optColumn" d1
      let d3 := applyOpt requirementSkeletonId idRef "requirementSkeleton" d2
      put O "optColumnContents" d3 s1

/-- `updateProjectType`: fetch, overwrite `name`, `description`,
`showOrder`, `active`, `optColumns` and `statusColumns` (as `[{ id }]`)
when provided, PUT to `projectTypes`. -/
def updateProjectType (O : Oracle) (i : Option Int) (name : Option String)
    (description : Option String) (statusColumnIds : Option (List Int))
    (optColumnIds : Option (List Int)) (showOrder : Option Int)
    (active : Option Bool) (s : ConnState) : Except SRError Val × ConnState :=
  match i with
  | none => (Except.error SRError.invalidArgument, s)
  | some n =>
    match getProjectType O (some n) s with
    | (Except.error e, s1) => (Except.error e, s1)
    | (Except.ok d0, s1) =>
      let d1 := applyOpt name Val.vstr "name" d0
      let d2 := applyOpt description Val.vstr "description" d1
      let d3 := applyOpt showOrder Val.vint "showOrder" d2
      let d4 := applyOpt active Val.vbool "active" d3
      let d5 := applyOpt optColumnIds idList "optColumns" d4
      let d6 := applyOpt statusColumnIds idList "statusColumns" d5
      put O "projectTypes" d6 s1

/-- Test fixture: a server that always answers 200 with an empty list. -/
def wO200 : Oracle := fun _ =>
  { status := 200, body := Val.vlist [], content := "[]", newToken := none }

/-- Test fixture: a server that always answers 400 with raw content `denied`. -/
def wO400 : Oracle := fun _ =>
  { status := 400, body := Val.vnull, content := "denied", newToken := none }

/-- Test fixture: a freshly constructed caching client. -/
def wS : ConnState :=
  { cached := true, cache := [], cookieToken := "tok0", headersToken := none,
    calls := 0, log := [] }

/-- Test fixture: a caching client holding a cached list under `items`. -/
def wSE : ConnState :=
  { cached := true, cache := [("items", Val.vlist [Val.vint 1])],
    cookieToken := "tok0", headersToken := none, calls := 0, log := [] }

/-- Test fixture: a body for mutating calls. -/
def wBody : Val := Val.vdict [("name", Val.vstr "x")]

/-- The client state after one cached fetch of `items` from `wS`. -/
def wS1 : ConnState := (getCached wO200 "items" wS).2

/-- The client state after a successful PUT against `items` from `wS1`. -/
def wS2 : ConnState := (put wO200 "items" wBody wS1).2

/-- The status-code component of a raised dispatch error, when present. -/
def errStatus (r : Except SRError Val) : Option Nat :=
  match r with
  | Except.error (SRError.requestError c _) => c
  | _ => none

/-- The merge contract of one optional field: the overwritten value when
the parameter is provided, the fetched one otherwise. -/
def mergedField {α : Type} (p : Option α) (f : α → Val) (dflt : Option Val) : Option Val :=
  match p with
  | some x => some (f x)
  | none => dflt

/-- The dict-level form of `applyOpt`, used to state the merge contracts. -/
def applyOptD {α : Type} (p : Option α) (f : α → Val) (k : String)
    (d : List (String × Val)) : List (String × Val) :=
  match p with
  | some x => dictSet d k (f x)
  | none => d

/-- Test fixture: a stored record as an item endpoint returns it. -/
def wRec : List (String × Val) :=
  [("id", Val.vint 3), ("name", Val.vstr "old"), ("description", Val.vstr "d0"),
   ("showOrder", Val.vint 0), ("active", Val.vbool false)]

/-- Test fixture: a server that always answers 200 with the record `wRec`. -/
def wOrec : Oracle := fun _ =>
  { status := 200, body := Val.vdict wRec, content := "rec", newToken := none }

/-- The client state after fetching `collectionCategorys/3` from `wS`. -/
def wS1g : ConnState := (get wOrec "collectionCategorys/3" wS).2

/-- The client state after fetching `requirementSkeletons/3` from `wS`. -/
def wS1h : ConnState := (get wOrec "requirementSkeletons/3" wS).2

theorem dictGet_dictSet (d : List (String × Val)) (k : String) (v : Val) (j : String) :
    dictGet (dictSet d k v) j = if k = j then some v else dictGet d j := by
  induction d with
  | nil =>
    simp only [dictSet, dictGet]
  | cons hd tl ih =>
    obtain ⟨k1, v1⟩ := hd
    by_cases h1 : k1 = k
    · subst h1
      by_cases h2 : k1 = j <;> simp [dictSet, dictGet, h2]
    · by_cases h2 : k1 = j
      · subst h2
        have hk : ¬ k = k1 := fun hh => h1 hh.symm
        simp [dictSet, dictGet, h1, hk, ih]
      · simp [dictSet, dictGet, h1, h2, ih]

theorem keys_dictSet (d : List (String × Val)) (k : String) (v : Val)
    (h : dictHasKey d k = true) :
    (dictSet d k v).map Prod.fst = d.map Prod.fst := by
  induction d with
  | nil => simp [dictHasKey, dictGet] at h
  | cons hd tl ih =>
    obtain ⟨k1, v1⟩ := hd
    by_cases h1 : k1 = k
    · simp [dictSet, h1]
    · have h2 : dictHasKey tl k = true := by
        simpa [dictHasKey, dictGet, h1] using h
      simp [dictSet, h1, ih h2]

theorem dictGet_eq_none_of_not_hasKey (d : List (String × Val)) (k : String)
    (h : dictHasKey d k = false) : dictGet d k = none := by
  unfold dictHasKey at h
  cases hg : dictGet d k with
  | none => rfl
  | some v => rw [hg] at h; simp at h

theorem get_state (O : Oracle) (e : String) (s : ConnState) :
    (get O e s).2 =
      { cached := s.cached, cache := s.cache,
        cookieToken := ((O s.calls).newToken).getD s.cookieToken,
        headersToken := some s.cookieToken, calls := s.calls + 1,
        log := Request.mk Method.GET e s.cookieToken none :: s.log } := by
  unfold get issue
  dsimp only
  split <;> rfl

theorem get_fst (O : Oracle) (e : String) (s : ConnState) :
    (get O e s).1 =
      if 400 ≤ (O s.calls).status then
        Except.error (SRError.requestError (some ((O s.calls).status)) none)
      else Except.ok ((O s.calls).body) := by
  unfold get issue
  dsimp only
  split <;> simp_all

theorem put_cached_flag (O : Oracle) (e : String) (b : Val) (s : ConnState) :
    ((put O e b s).2).cached = s.cached := by
  unfold put issue
  dsimp only
  split
  · rfl
  · split <;> rfl

theorem post_cached_flag (O : Oracle) (e : String) (b : Val) (s : ConnState) :
    ((post O e b s).2).cached = s.cached := by
  unfold post issue
  dsimp only
  split
  · rfl
  · split <;> rfl

theorem delete_cached_flag (O : Oracle) (e : String) (s : ConnState) :
    ((delete O e s).2).cached = s.cached := by
  unfold delete issue
  dsimp only
  split
  · rfl
  · split <;> rfl

theorem put_cache (O : Oracle) (e : String) (b : Val) (s : ConnState) :
    ((put O e b s).2).cache =
      if 400 ≤ (O s.calls).status then s.cache
      else if s.cached && dictHasKey s.cache e then dictSet s.cache e Val.vnull
      else s.cache := by
  unfold put issue
  dsimp only
  split
  · simp_all
  · split <;> simp_all

theorem post_cache (O : Oracle) (e : String) (b : Val) (s : ConnState) :
    ((post O e b s).2).cache =
      if 400 ≤ (O s.calls).status then s.cache
      else if s.cached && dictHasKey s.cache e then dictSet s.cache e Val.vnull
      else s.cache := by
  unfold post issue
  dsimp only
  split
  · simp_all
  · split <;> simp_all

theorem delete_cache (O : Oracle) (e : String) (s : ConnState) :
    ((delete O e s).2).cache =
      if 400 ≤ (O s.calls).status then s.cache
      else if s.cached && dictHasKey s.cache e then dictSet s.cache e Val.vnull
      else s.cache := by
  unfold delete issue
  dsimp only
  split
  · simp_all
  · split <;> simp_all

theorem put_fst (O : Oracle) (e : String) (b : Val) (s : ConnState) :
    (put O e b s).1 =
      if 400 ≤ (O s.calls).status then
        Except.error (SRError.requestError (some ((O s.calls).status)) none)
      else Except.ok ((O s.calls).body) := by
  unfold put issue
  dsimp only
  split
  · simp_all
  · split <;> simp_all

theorem post_fst (O : Oracle) (e : String) (b : Val) (s : ConnState) :
    (post O e b s).1 =
      if 400 ≤ (O s.calls).status then
        Except.error (SRError.requestError none (some ((O s.calls).content)))
      else Except.ok ((O s.calls).body) := by
  unfold post issue
  dsimp only
  split
  · simp_all
  · split <;> simp_all

theorem delete_fst (O : Oracle) (e : String) (s : ConnState) :
    (delete O e s).1 =
      if 400 ≤ (O s.calls).status then
        Except.error (SRError.requestError (some ((O s.calls).status)) none)
      else Except.ok true := by
  unfold delete issue
  dsimp only
  split
  · simp_all
  · split <;> simp_all

theorem put_log (O : Oracle) (e : String) (b : Val) (s : ConnState) :
    ((put O e b s).2).log = Request.mk Method.PUT e s.cookieToken (some b) :: s.log := by
  unfold put issue
  dsimp only
  split
  · rfl
  · split <;> rfl

theorem post_log (O : Oracle) (e : String) (b : Val) (s : ConnState) :
    ((post O e b s).2).log = Request.mk Method.POST e s.cookieToken (some b) :: s.log := by
  unfold post issue
  dsimp only
  split
  · rfl
  · split <;> rfl

theorem delete_log (O : Oracle) (e : String) (s : ConnState) :
    ((delete O e s).2).log = Request.mk Method.DELETE e s.cookieToken none :: s.log := by
  unfold delete issue
  dsimp only
  split
  · rfl
  · split <;> rfl

theorem put_calls (O : Oracle) (e : String) (b : Val) (s : ConnState) :
    ((put O e b s).2).calls = s.calls + 1 := by
  unfold put issue
  dsimp only
  split
  · rfl
  · split <;> rfl

theorem post_calls (O : Oracle) (e : String) (b : Val) (s : ConnState) :
    ((post O e b s).2).calls = s.calls + 1 := by
  unfold post issue
  dsimp only
  split
  · rfl
  · split <;> rfl

theorem delete_calls (O : Oracle) (e : String) (s : ConnState) :
    ((delete O e s).2).calls = s.calls + 1 := by
  unfold delete issue
  dsimp only
  split
  · rfl
  · split <;> rfl

theorem getCachedMiss_ok (O : Oracle) (e : String) (s : ConnState) (w : Val)
    (s1 : ConnState) (hg : get O e s = (Except.ok w, s1)) :
    getCachedMiss O e s = (Except.ok w, { s1 with cache := dictSet s1.cache e w }) := by
  unfold getCachedMiss
  rw [hg]

theorem getCachedMiss_err (O : Oracle) (e : String) (s : ConnState) (er : SRError)
    (s1 : ConnState) (hg : get O e s = (Except.error er, s1)) :
    getCachedMiss O e s = (Except.error er, s1) := by
  unfold getCachedMiss
  rw [hg]

theorem getCachedMiss_state_cached (O : Oracle) (e : String) (s : ConnState) :
    ((getCachedMiss O e s).2).cached = s.cached := by
  unfold getCachedMiss
  rcases hg : get O e s with ⟨res, s1⟩
  have h1 : s1.cached = s.cached := by
    have h2 := get_state O e s
    rw [hg] at h2
    simp only at h2
    rw [h2]
  cases res <;> simp [h1]

theorem getCachedMiss_calls (O : Oracle) (e : String) (s : ConnState) :
    ((getCachedMiss O e s).2).calls = s.calls + 1 := by
  unfold getCachedMiss
  rcases hg : get O e s with ⟨res, s1⟩
  have h1 : s1.calls = s.calls + 1 := by
    have h2 := get_state O e s
    rw [hg] at h2
    simp only at h2
    rw [h2]
  cases res <;> simp [h1]

theorem getCached_eq_miss (O : Oracle) (e : String) (s : ConnState)
    (h : s.cached = true) (hp : cachePresent s.cache e = false) :
    getCached O e s = getCachedMiss O e s := by
  unfold getCached
  rw [if_pos h]
  unfold cachePresent at hp
  cases hv : dictGet s.cache e with
  | none => simp
  | some v =>
    rw [hv] at hp
    simp only [Bool.not_eq_true] at hp
    simp only [hv]
    rw [if_pos (by simpa using hp)]

theorem getCached_hit (O : Oracle) (e : String) (s : ConnState) (v : Val)
    (h : s.cached = true) (hv : dictGet s.cache e = some v)
    (hn : v.isNull = false) : getCached O e s = (Except.ok v, s) := by
  unfold getCached
  rw [if_pos h, hv]
  simp [hn]

theorem getCached_state_cached (O : Oracle) (e : String) (s : ConnState) :
    ((getCached O e s).2).cached = s.cached := by
  unfold getCached
  split
  · split
    · split
      · exact getCachedMiss_state_cached O e s
      · rfl
    · exact getCachedMiss_state_cached O e s
  · have h2 := get_state O e s
    rw [h2]

theorem getCached_stores (O : Oracle) (e : String) (s : ConnState) (v : Val)
    (s1 : ConnState) (h : s.cached = true)
    (hres : getCached O e s = (Except.ok v, s1)) :
    dictGet s1.cache e = some v := by
  unfold getCached at hres
  rw [if_pos h] at hres
  have miss : getCachedMiss O e s = (Except.ok v, s1) → dictGet s1.cache e = some v := by
    intro hm
    unfold getCachedMiss at hm
    rcases hg : get O e s with ⟨res, s2⟩
    rw [hg] at hm
    cases res with
    | ok w =>
      simp only at hm
      have hv : w = v := by exact congrArg (fun p => match p.1 with | Except.ok x => x | _ => w) hm
      have hs : s1 = { s2 with cache := dictSet s2.cache e w } := by
        have := congrArg Prod.snd hm
        exact this.symm
      rw [hs, hv]
      simp [dictGet_dictSet]
    | error er => simp at hm
  cases hv : dictGet s.cache e with
  | none =>
    rw [hv] at hres
    exact miss hres
  | some w =>
    rw [hv] at hres
    dsimp only at hres
    by_cases hn : w.isNull
    · rw [if_pos hn] at hres
      exact miss hres
    · rw [if_neg hn] at hres
      have h1 : w = v := congrArg (fun p => match p.1 with | Except.ok x => x | _ => w) hres
      have h2 : s1 = s := (congrArg Prod.snd hres).symm
      rw [h2, hv, h1]

theorem put_ok_status (O : Oracle) (e : String) (b : Val) (s : ConnState) (r : Val)
    (hres : (put O e b s).1 = Except.ok r) : ¬ 400 ≤ (O s.calls).status := by
  rw [put_fst] at hres
  intro hc
  rw [if_pos hc] at hres
  exact absurd hres (by simp)

theorem post_ok_status (O : Oracle) (e : String) (b : Val) (s : ConnState) (r : Val)
    (hres : (post O e b s).1 = Except.ok r) : ¬ 400 ≤ (O s.calls).status := by
  rw [post_fst] at hres
  intro hc
  rw [if_pos hc] at hres
  exact absurd hres (by simp)

theorem delete_ok_status (O : Oracle) (e : String) (s : ConnState) (r : Bool)
    (hres : (delete O e s).1 = Except.ok r) : ¬ 400 ≤ (O s.calls).status := by
  rw [delete_fst] at hres
  intro hc
  rw [if_pos hc] at hres
  exact absurd hres (by simp)

theorem cachePresent_after_invalidate (cache : List (String × Val)) (e : String) :
    cachePresent (if dictHasKey cache e then dictSet cache e Val.vnull else cache) e
      = false := by
  by_cases hk : dictHasKey cache e
  · rw [if_pos hk]
    unfold cachePresent
    rw [dictGet_dictSet]
    simp [Val.isNull]
  · rw [if_neg hk]
    unfold cachePresent
    rw [dictGet_eq_none_of_not_hasKey cache e (by simpa using hk)]

/-- Claim C3: every dispatch operation raises `RequestError` exactly when
the response status code is at least 400; below 400 (2xx and 3xx alike)
`get`, `post` and `put` return the decoded response body and `delete`
returns `True` without parsing a body. -/
theorem C3_error_threshold (O : Oracle) (e : String) (b : Val) (s : ConnState) :
    ((∃ c ct, (get O e s).1 = Except.error (SRError.requestError c ct))
        ↔ 400 ≤ (O s.calls).status)
  ∧ ((∃ c ct, (post O e b s).1 = Except.error (SRError.requestError c ct))
        ↔ 400 ≤ (O s.calls).status)
  ∧ ((∃ c ct, (put O e b s).1 = Except.error (SRError.requestError c ct))
        ↔ 400 ≤ (O s.calls).status)
  ∧ ((∃ c ct, (delete O e s).1 = Except.error (SRError.requestError c ct))
        ↔ 400 ≤ (O s.calls).status)
  ∧ (¬ 400 ≤ (O s.calls).status →
        (get O e s).1 = Except.ok ((O s.calls).body)
      ∧ (post O e b s).1 = Except.ok ((O s.calls).body)
      ∧ (put O e b s).1 = Except.ok ((O s.calls).body)
      ∧ (delete O e s).1 = Except.ok true) := by
  by_cases hs : 400 ≤ (O s.calls).status <;>
    simp [get_fst, post_fst, put_fst, delete_fst, hs]

theorem C3_error_threshold_witness :
    (get wO200 "items" wS).1 = Except.ok ((wO200 wS.calls).body)
  ∧ (∃ c ct, (get wO400 "items" wS).1 = Except.error (SRError.requestError c ct)) :=
  ⟨((C3_error_threshold wO200 "items" wBody wS).2.2.2.2 (by decide)).1,
   ((C3_error_threshold wO400 "items" wBody wS).1).2 (by decide)⟩

/-- Claim C8: every dispatch operation attaches to its outgoing request the
anti-forgery token read from the session cookie state at the moment of the
call (whatever that state is, not the value at construction or login):
the request each operation emits carries the current `cookieToken`. -/
theorem C8_token_refresh (O : Oracle) (e : String) (b : Val) (s : ConnState) :
    ((get O e s).2).log = Request.mk Method.GET e s.cookieToken none :: s.log
  ∧ ((post O e b s).2).log = Request.mk Method.POST e s.cookieToken (some b) :: s.log
  ∧ ((put O e b s).2).log = Request.mk Method.PUT e s.cookieToken (some b) :: s.log
  ∧ ((delete O e s).2).log = Request.mk Method.DELETE e s.cookieToken none :: s.log := by
  refine ⟨?_, post_log O e b s, put_log O e b s, delete_log O e s⟩
  rw [get_state]

/-- Claim C7: invalidation matches cache keys by exact endpoint string
equality — any mutation against endpoint `e` leaves the cache entry of
every other endpoint string `e2` unchanged. -/
theorem C7_exact_endpoint_invalidation (O : Oracle) (e e2 : String) (b : Val)
    (s : ConnState) (hne : e2 ≠ e) :
    dictGet ((put O e b s).2).cache e2 = dictGet s.cache e2
  ∧ dictGet ((post O e b s).2).cache e2 = dictGet s.cache e2
  ∧ dictGet ((delete O e s).2).cache e2 = dictGet s.cache e2 := by
  have hns : ¬ e = e2 := fun hh => hne hh.symm
  refine ⟨?_, ?_, ?_⟩
  · rw [put_cache]
    split
    · rfl
    · split
      · rw [dictGet_dictSet, if_neg hns]
      · rfl
  · rw [post_cache]
    split
    · rfl
    · split
      · rw [dictGet_dictSet, if_neg hns]
      · rfl
  · rw [delete_cache]
    split
    · rfl
    · split
      · rw [dictGet_dictSet, if_neg hns]
      · rfl

theorem C7_exact_endpoint_invalidation_witness :
    dictGet ((delete wO200 "items/5" wSE).2).cache "items"
      = dictGet wSE.cache "items" :=
  (C7_exact_endpoint_invalidation wO200 "items/5" "items" wBody wSE (by decide)).2.2

/-- Claim C4 fails on the code for POST: at this concrete failing POST
(status 400, raw content `denied`) the raised error carries only the raw
content — its status-code component is `none`, so POST does not report the
status code at minimum as claimed. -/
theorem C4_post_error_counterexample :
    (wO400 0).status = 400
  ∧ (post wO400 "items" wBody wS).1
      = Except.error (SRError.requestError none (some "denied"))
  ∧ errStatus ((post wO400 "items" wBody wS).1) = none :=
  ⟨rfl, rfl, rfl⟩

/-- Claim C4 (amended): on failure `get`, `put` and `delete` raise
`RequestError` carrying exactly the status code (and no content), while
`post` raises `RequestError` carrying exactly the raw response content
verbatim and not the status code. -/
theorem C4_error_payloads (O : Oracle) (e : String) (b : Val) (s : ConnState)
    (h : 400 ≤ (O s.calls).status) :
    (get O e s).1 = Except.error (SRError.requestError (some ((O s.calls).status)) none)
  ∧ (put O e b s).1 = Except.error (SRError.requestError (some ((O s.calls).status)) none)
  ∧ (delete O e s).1 = Except.error (SRError.requestError (some ((O s.calls).status)) none)
  ∧ (post O e b s).1 = Except.error (SRError.requestError none (some ((O s.calls).content))) := by
  simp [get_fst, put_fst, delete_fst, post_fst, h]

theorem C4_error_payloads_witness :
    400 ≤ (wO400 wS.calls).status
  ∧ (post wO400 "items" wBody wS).1
      = Except.error (SRError.requestError none (some ((wO400 wS.calls).content))) :=
  ⟨by decide, (C4_error_payloads wO400 "items" wBody wS (by decide)).2.2.2⟩

theorem put_cache_of_error (O : Oracle) (e : String) (b : Val) (s : ConnState)
    (er : SRError) (herr : (put O e b s).1 = Except.error er) :
    ((put O e b s).2).cache = s.cache := by
  rw [put_cache]
  rw [put_fst] at herr
  by_cases hs : 400 ≤ (O s.calls).status
  · rw [if_pos hs]
  · rw [if_neg hs] at herr
    exact absurd herr (by simp)

theorem post_cache_of_error (O : Oracle) (e : String) (b : Val) (s : ConnState)
    (er : SRError) (herr : (post O e b s).1 = Except.error er) :
    ((post O e b s).2).cache = s.cache := by
  rw [post_cache]
  rw [post_fst] at herr
  by_cases hs : 400 ≤ (O s.calls).status
  · rw [if_pos hs]
  · rw [if_neg hs] at herr
    exact absurd herr (by simp)

theorem delete_cache_of_error (O : Oracle) (e : String) (s : ConnState)
    (er : SRError) (herr : (delete O e s).1 = Except.error er) :
    ((delete O e s).2).cache = s.cache := by
  rw [delete_cache]
  rw [delete_fst] at herr
  by_cases hs : 400 ≤ (O s.calls).status
  · rw [if_pos hs]
  · rw [if_neg hs] at herr
    exact absurd herr (by simp)

theorem getCachedMiss_eq (O : Oracle) (e : String) (s : ConnState) :
    getCachedMiss O e s =
      match (get O e s).1 with
      | Except.ok w =>
          (Except.ok w, { (get O e s).2 with cache := dictSet ((get O e s).2).cache e w })
      | Except.error er => (Except.error er, (get O e s).2) := by
  unfold getCachedMiss
  rcases get O e s with ⟨res, s1⟩
  cases res <;> rfl

theorem getCachedMiss_cache_of_error (O : Oracle) (e : String) (s : ConnState)
    (er : SRError) (herr : (getCachedMiss O e s).1 = Except.error er) :
    ((getCachedMiss O e s).2).cache = s.cache := by
  rw [getCachedMiss_eq] at herr ⊢
  cases hg : (get O e s).1 with
  | ok w =>
    rw [hg] at herr
    exact absurd herr (by simp)
  | error e2 =>
    dsimp only
    rw [get_state]

theorem getCached_cache_of_error (O : Oracle) (e : String) (s : ConnState)
    (er : SRError) (herr : (getCached O e s).1 = Except.error er) :
    ((getCached O e s).2).cache = s.cache := by
  unfold getCached at herr ⊢
  by_cases hc : s.cached = true
  · rw [if_pos hc] at herr ⊢
    cases hv : dictGet s.cache e with
    | none =>
      rw [hv] at herr
      exact getCachedMiss_cache_of_error O e s er herr
    | some v =>
      rw [hv] at herr
      dsimp only at herr ⊢
      by_cases hn : v.isNull = true
      · rw [if_pos hn] at herr ⊢
        exact getCachedMiss_cache_of_error O e s er herr
      · rw [if_neg hn] at herr
        exact absurd herr (by simp)
  · rw [if_neg hc] at herr ⊢
    rw [get_state]

/-- Claim C5: failures leave the cache untouched — a `getCached` whose
underlying `get` raises leaves the whole cache (including any prior entry
for that endpoint) unchanged, and a `post`, `put` or `delete` that raises
performs no cache invalidation. -/
theorem C5_failure_atomicity (O : Oracle) (e : String) (b : Val) (s : ConnState)
    (er1 er2 er3 er4 : SRError) :
    ((getCached O e s).1 = Except.error er1 → ((getCached O e s).2).cache = s.cache)
  ∧ ((put O e b s).1 = Except.error er2 → ((put O e b s).2).cache = s.cache)
  ∧ ((post O e b s).1 = Except.error er3 → ((post O e b s).2).cache = s.cache)
  ∧ ((delete O e s).1 = Except.error er4 → ((delete O e s).2).cache = s.cache) :=
  ⟨getCached_cache_of_error O e s er1, put_cache_of_error O e b s er2,
   post_cache_of_error O e b s er3, delete_cache_of_error O e s er4⟩

theorem C5_failure_atomicity_witness :
    ((getCached wO400 "items" wS).2).cache = wS.cache
  ∧ ((put wO400 "items" wBody wSE).2).cache = wSE.cache :=
  ⟨(C5_failure_atomicity wO400 "items" wBody wS
      (SRError.requestError (some 400) none) (SRError.requestError (some 400) none)
      (SRError.requestError none (some "denied")) (SRError.requestError (some 400) none)).1
      (by rfl),
   (C5_failure_atomicity wO400 "items" wBody wSE
      (SRError.requestError (some 400) none) (SRError.requestError (some 400) none)
      (SRError.requestError none (some "denied")) (SRError.requestError (some 400) none)).2.1
      (by rfl)⟩

theorem put_invalidates (O : Oracle) (e : String) (b : Val) (s : ConnState)
    (r : Val) (s2 : ConnState) (h : s.cached = true)
    (hput : put O e b s = (Except.ok r, s2)) :
    cachePresent s2.cache e = false := by
  have hc := put_cache O e b s
  rw [hput] at hc
  simp only at hc
  have hs : ¬ 400 ≤ (O s.calls).status :=
    put_ok_status O e b s r (by rw [hput])
  rw [if_neg hs, h] at hc
  simp only [Bool.true_and] at hc
  rw [hc]
  exact cachePresent_after_invalidate s.cache e

theorem post_invalidates (O : Oracle) (e : String) (b : Val) (s : ConnState)
    (r : Val) (s2 : ConnState) (h : s.cached = true)
    (hpost : post O e b s = (Except.ok r, s2)) :
    cachePresent s2.cache e = false := by
  have hc := post_cache O e b s
  rw [hpost] at hc
  simp only at hc
  have hs : ¬ 400 ≤ (O s.calls).status :=
    post_ok_status O e b s r (by rw [hpost])
  rw [if_neg hs, h] at hc
  simp only [Bool.true_and] at hc
  rw [hc]
  exact cachePresent_after_invalidate s.cache e

theorem delete_invalidates (O : Oracle) (e : String) (s : ConnState)
    (r : Bool) (s2 : ConnState) (h : s.cached = true)
    (hdel : delete O e s = (Except.ok r, s2)) :
    cachePresent s2.cache e = false := by
  have hc := delete_cache O e s
  rw [hdel] at hc
  simp only at hc
  have hs : ¬ 400 ≤ (O s.calls).status :=
    delete_ok_status O e s r (by rw [hdel])
  rw [if_neg hs, h] at hc
  simp only [Bool.true_and] at hc
  rw [hc]
  exact cachePresent_after_invalidate s.cache e

theorem getCached_calls_of_absent (O : Oracle) (e : String) (s : ConnState)
    (h : s.cached = true) (hp : cachePresent s.cache e = false) :
    ((getCached O e s).2).calls = s.calls + 1 := by
  rw [getCached_eq_miss O e s h hp]
  exact getCachedMiss_calls O e s

/-- Claim C1: with caching enabled, after a cached fetch of endpoint `e`
succeeds, a subsequent successful `post`, `put` or `delete` against the
same endpoint string leaves no usable cache entry for `e`, so the next
`getCached e` issues a new Dispatcher get (its network call counter
advances). -/
theorem C1_mutation_invalidates (O1 O2 O3 : Oracle) (e : String)
    (s s1 : ConnState) (v : Val) (h : s.cached = true)
    (hfetch : getCached O1 e s = (Except.ok v, s1)) :
    (∀ b r s2, put O2 e b s1 = (Except.ok r, s2) →
        cachePresent s2.cache e = false
      ∧ ((getCached O3 e s2).2).calls = s2.calls + 1)
  ∧ (∀ b r s2, post O2 e b s1 = (Except.ok r, s2) →
        cachePresent s2.cache e = false
      ∧ ((getCached O3 e s2).2).calls = s2.calls + 1)
  ∧ (∀ r s2, delete O2 e s1 = (Except.ok r, s2) →
        cachePresent s2.cache e = false
      ∧ ((getCached O3 e s2).2).calls = s2.calls + 1) := by
  have hs1 : s1.cached = true := by
    have hgc := getCached_state_cached O1 e s
    rw [hfetch] at hgc
    simp only at hgc
    rw [hgc, h]
  refine ⟨?_, ?_, ?_⟩
  · intro b r s2 hput
    have hinv := put_invalidates O2 e b s1 r s2 hs1 hput
    have hs2 : s2.cached = true := by
      have hfl := put_cached_flag O2 e b s1
      rw [hput] at hfl
      simp only at hfl
      rw [hfl, hs1]
    exact ⟨hinv, getCached_calls_of_absent O3 e s2 hs2 hinv⟩
  · intro b r s2 hpost
    have hinv := post_invalidates O2 e b s1 r s2 hs1 hpost
    have hs2 : s2.cached = true := by
      have hfl := post_cached_flag O2 e b s1
      rw [hpost] at hfl
      simp only at hfl
      rw [hfl, hs1]
    exact ⟨hinv, getCached_calls_of_absent O3 e s2 hs2 hinv⟩
  · intro r s2 hdel
    have hinv := delete_invalidates O2 e s1 r s2 hs1 hdel
    have hs2 : s2.cached = true := by
      have hfl := delete_cached_flag O2 e s1
      rw [hdel] at hfl
      simp only at hfl
      rw [hfl, hs1]
    exact ⟨hinv, getCached_calls_of_absent O3 e s2 hs2 hinv⟩

theorem C1_mutation_invalidates_witness :
    cachePresent wS2.cache "items" = false
  ∧ ((getCached wO200 "items" wS2).2).calls = wS2.calls + 1 :=
  (C1_mutation_invalidates wO200 wO200 wO200 "items" wS wS1 (Val.vlist [])
      rfl rfl).1 wBody (Val.vlist []) wS2 rfl

/-- Claim C2: with caching enabled, a successful `getCached` of endpoint
`e` whose (structured, non-null) result is `v` stores `v` under key `e`,
and a second `getCached e` with no intervening mutation returns the
identical value with the state unchanged — no Dispatcher get against any
server; on a cache miss `getCached` delegates to `get`, returning exactly
its result and issuing exactly one network call. -/
theorem C2_cache_hit (O O2 : Oracle) (e : String) (s s1 : ConnState) (v : Val)
    (h : s.cached = true) (hfetch : getCached O e s = (Except.ok v, s1))
    (hv : v.isNull = false) :
    getCached O2 e s1 = (Except.ok v, s1)
  ∧ dictGet s1.cache e = some v
  ∧ (cachePresent s.cache e = false →
       (get O e s).1 = Except.ok v ∧ s1.calls = s.calls + 1) := by
  have hs1 : s1.cached = true := by
    have hgc := getCached_state_cached O e s
    rw [hfetch] at hgc
    simp only at hgc
    rw [hgc, h]
  have hstore : dictGet s1.cache e = some v :=
    getCached_stores O e s v s1 h hfetch
  refine ⟨getCached_hit O2 e s1 v hs1 hstore hv, hstore, ?_⟩
  intro hp
  rw [getCached_eq_miss O e s h hp, getCachedMiss_eq] at hfetch
  cases hg : (get O e s).1 with
  | ok w =>
    rw [hg] at hfetch
    dsimp only at hfetch
    have hw : w = v := by
      have h1 := congrArg Prod.fst hfetch
      simpa using h1
    have hcalls : s1.calls = s.calls + 1 := by
      have h2 := congrArg Prod.snd hfetch
      simp only at h2
      rw [← h2]
      simp only
      rw [get_state]
    exact ⟨by rw [hw], hcalls⟩
  | error e2 =>
    rw [hg] at hfetch
    exact absurd (congrArg Prod.fst hfetch) (by simp)

theorem C2_cache_hit_witness :
    getCached wO200 "items" wS1 = (Except.ok (Val.vlist []), wS1)
  ∧ dictGet wS1.cache "items" = some (Val.vlist [])
  ∧ (get wO200 "items" wS).1 = Except.ok (Val.vlist [])
  ∧ wS1.calls = wS.calls + 1 := by
  have h := C2_cache_hit wO200 wO200 "items" wS wS1 (Val.vlist []) rfl rfl rfl
  exact ⟨h.1, h.2.1, (h.2.2 rfl).1, (h.2.2 rfl).2⟩

theorem put_cache_keys (O : Oracle) (e : String) (b : Val) (s : ConnState) :
    ((put O e b s).2).cache.map Prod.fst = s.cache.map Prod.fst := by
  rw [put_cache]
  split
  · rfl
  · split
    · next hcond =>
      exact keys_dictSet s.cache e Val.vnull (by simpa using (Bool.and_elim_right hcond))
    · rfl

theorem post_cache_keys (O : Oracle) (e : String) (b : Val) (s : ConnState) :
    ((post O e b s).2).cache.map Prod.fst = s.cache.map Prod.fst := by
  rw [post_cache]
  split
  · rfl
  · split
    · next hcond =>
      exact keys_dictSet s.cache e Val.vnull (by simpa using (Bool.and_elim_right hcond))
    · rfl

theorem delete_cache_keys (O : Oracle) (e : String) (s : ConnState) :
    ((delete O e s).2).cache.map Prod.fst = s.cache.map Prod.fst := by
  rw [delete_cache]
  split
  · rfl
  · split
    · next hcond =>
      exact keys_dictSet s.cache e Val.vnull (by simpa using (Bool.and_elim_right hcond))
    · rfl

/-- Claim C10: mutations never add or remove cache keys — a successful
mutation on a cached endpoint overwrites the entry with `None` while the
key persists, a mutation on a never-fetched endpoint leaves the cache
map identical, `get` never touches the cache, and `getCached` treats a
key mapped to `None` exactly like a missing key (both take the refetch
branch). -/
theorem C10_cache_key_invariant (O : Oracle) (e : String) (b : Val)
    (s : ConnState) :
    ((put O e b s).2).cache.map Prod.fst = s.cache.map Prod.fst
  ∧ ((post O e b s).2).cache.map Prod.fst = s.cache.map Prod.fst
  ∧ ((delete O e s).2).cache.map Prod.fst = s.cache.map Prod.fst
  ∧ ((get O e s).2).cache = s.cache
  ∧ (s.cached = true → dictHasKey s.cache e = true → ¬ 400 ≤ (O s.calls).status →
        dictGet ((put O e b s).2).cache e = some Val.vnull
      ∧ dictGet ((post O e b s).2).cache e = some Val.vnull
      ∧ dictGet ((delete O e s).2).cache e = some Val.vnull)
  ∧ (dictHasKey s.cache e = false →
        ((put O e b s).2).cache = s.cache
      ∧ ((post O e b s).2).cache = s.cache
      ∧ ((delete O e s).2).cache = s.cache)
  ∧ (s.cached = true → dictGet s.cache e = some Val.vnull →
        getCached O e s = getCachedMiss O e s)
  ∧ (s.cached = true → dictGet s.cache e = none →
        getCached O e s = getCachedMiss O e s) := by
  refine ⟨put_cache_keys O e b s, post_cache_keys O e b s, delete_cache_keys O e s,
    ?_, ?_, ?_, ?_, ?_⟩
  · rw [get_state]
  · intro hc hk hs
    have hcond : (s.cached && dictHasKey s.cache e) = true := by
      rw [hc, hk]
      rfl
    refine ⟨?_, ?_, ?_⟩
    · rw [put_cache, if_neg hs, if_pos hcond, dictGet_dictSet, if_pos rfl]
    · rw [post_cache, if_neg hs, if_pos hcond, dictGet_dictSet, if_pos rfl]
    · rw [delete_cache, if_neg hs, if_pos hcond, dictGet_dictSet, if_pos rfl]
  · intro hk
    have hcond : (s.cached && dictHasKey s.cache e) = false := by
      rw [hk]
      simp
    refine ⟨?_, ?_, ?_⟩
    · rw [put_cache, hcond]
      split <;> simp
    · rw [post_cache, hcond]
      split <;> simp
    · rw [delete_cache, hcond]
      split <;> simp
  · intro hc hv
    exact getCached_eq_miss O e s hc (by unfold cachePresent; rw [hv]; rfl)
  · intro hc hv
    exact getCached_eq_miss O e s hc (by unfold cachePresent; rw [hv])

theorem C10_cache_key_invariant_witness :
    ((put wO200 "items" wBody wSE).2).cache.map Prod.fst
      = wSE.cache.map Prod.fst
  ∧ dictGet ((put wO200 "items" wBody wSE).2).cache "items" = some Val.vnull :=
  ⟨(C10_cache_key_invariant wO200 "items" wBody wSE).1,
   ((C10_cache_key_invariant wO200 "items" wBody wSE).2.2.2.2.1
      rfl rfl (by decide)).1⟩

/-- Claim C6: every identifier-bearing single-item operation — all twelve
single-item gets, all ten deletes and all ten updates — called with an
absent identifier raises `InvalidArgument` and returns the state exactly
as it was: no network call is issued and no cache or session state
changes. -/
theorem C6_fail_fast_on_missing_id (O : Oracle) (s : ConnState)
    (a1 a2 a3 : Option String) (n1 n2 : Option Int) (b1 b2 : Option Bool)
    (l1 l2 l3 : Option (List Int)) :
    getCollectionCategory O none s = (Except.error SRError.invalidArgument, s)
  ∧ getCollectionInstance O none s = (Except.error SRError.invalidArgument, s)
  ∧ getTagCategory O none s = (Except.error SRError.invalidArgument, s)
  ∧ getTagInstance O none s = (Except.error SRError.invalidArgument, s)
  ∧ getRequirementCategory O none s = (Except.error SRError.invalidArgument, s)
  ∧ getRequirementSkeleton O none s = (Except.error SRError.invalidArgument, s)
  ∧ getOptColumnType O none s = (Except.error SRError.invalidArgument, s)
  ∧ getOptColumn O none s = (Except.error SRError.invalidArgument, s)
  ∧ getOptColumnContent O none s = (Except.error SRError.invalidArgument, s)
  ∧ getProjectType O none s = (Except.error SRError.invalidArgument, s)
  ∧ getStatusColumn O none s = (Except.error SRError.invalidArgument, s)
  ∧ getAlternativeInstance O none s = (Except.error SRError.invalidArgument, s)
  ∧ deleteCollectionCategory O none s = (Except.error SRError.invalidArgument, s)
  ∧ deleteCollectionInstance O none s = (Except.error SRError.invalidArgument, s)
  ∧ deleteTagCategory O none s = (Except.error SRError.invalidArgument, s)
  ∧ deleteTagInstance O none s = (Except.error SRError.invalidArgument, s)
  ∧ deleteRequirementCategory O none s = (Except.error SRError.invalidArgument, s)
  ∧ deleteRequirementSkeleton O none s = (Except.error SRError.invalidArgument, s)
  ∧ deleteOptColumnType O none s = (Except.error SRError.invalidArgument, s)
  ∧ deleteOptColumn O none s = (Except.error SRError.invalidArgument, s)
  ∧ deleteOptColumnContent O none s = (Except.error SRError.invalidArgument, s)
  ∧ deleteProjectType O none s = (Except.error SRError.invalidArgument, s)
  ∧ updateCollectionCategory O none a1 a2 n1 b1 s
      = (Except.error SRError.invalidArgument, s)
  ∧ updateCollectionInstance O none a1 a2 n1 n2 b1 s
      = (Except.error SRError.invalidArgument, s)
  ∧ updateTagCategory O none a1 a2 n1 b1 s
      = (Except.error SRError.invalidArgument, s)
  ∧ updateTagInstance O none a1 a2 n1 n2 b1 s
      = (Except.error SRError.invalidArgument, s)
  ∧ updateRequirementCategory O none a1 a2 a3 n1 b1 s
      = (Except.error SRError.invalidArgument, s)
  ∧ updateRequirementSkeleton O none a1 a2 n1 l1 l2 l3 n2 b1 a3 s
      = (Except.error SRError.invalidArgument, s)
  ∧ updateOptColumnType O none a1 a2 s
      = (Except.error SRError.invalidArgument, s)
  ∧ updateOptColumn O none a1 a2 n1 n2 b1 b2 s
      = (Except.error SRError.invalidArgument, s)
  ∧ updateOptColumnContent O none a1 n1 n2 s
      = (Except.error SRError.invalidArgument, s)
  ∧ updateProjectType O none a1 a2 l1 l2 n1 b1 s
      = (Except.error SRError.invalidArgument, s) :=
  ⟨rfl, rfl, rfl, rfl, rfl, rfl, rfl, rfl, rfl, rfl, rfl, rfl, rfl, rfl, rfl,
   rfl, rfl, rfl, rfl, rfl, rfl, rfl, rfl, rfl, rfl, rfl, rfl, rfl, rfl, rfl,
   rfl, rfl⟩

theorem applyOpt_vdict {α : Type} (p : Option α) (f : α → Val) (k : String)
    (d : List (String × Val)) :
    applyOpt p f k (Val.vdict d) = Val.vdict (applyOptD p f k d) := by
  cases p <;> rfl

theorem dictGet_applyOptD {α : Type} (p : Option α) (f : α → Val) (k j : String)
    (d : List (String × Val)) :
    dictGet (applyOptD p f k d) j =
      if k = j then mergedField p f (dictGet d j) else dictGet d j := by
  cases p <;> by_cases h : k = j <;>
    simp [applyOptD, dictGet_dictSet, mergedField, h]

/-- Claim C9: every update operation follows fetch-then-merge-then-put.
For each of the ten update helpers: when the identifier is present and
the single-item fetch returns a record, the operation equals a PUT,
issued from the post-fetch state, of a merged record whose fields are
the fetched ones with exactly the non-`None` parameters overwritten
(each `None` parameter leaves the fetched field unchanged, every other
key is untouched); the request log shows the GET followed by the PUT
carrying the merged body. -/
theorem C9_update_fetch_merge_put :
  (∀ (O : Oracle) (s : ConnState) (n : Int) (name : Option String) (descr : Option String) (so : Option Int) (act : Option Bool)
      (d : List (String × Val)) (s1 : ConnState),
      get O ("collectionCategorys/" ++ toString n) s = (Except.ok (Val.vdict d), s1) →
      ∃ dm : List (String × Val),
        updateCollectionCategory O (some n) name descr so act s = put O "collectionCategorys" (Val.vdict dm) s1
      ∧ ((put O "collectionCategorys" (Val.vdict dm) s1).2).log
          = Request.mk Method.PUT "collectionCategorys" s1.cookieToken (some (Val.vdict dm))
            :: Request.mk Method.GET ("collectionCategorys/" ++ toString n) s.cookieToken none :: s.log
      ∧ dictGet dm "name" = mergedField name Val.vstr (dictGet d "name")
      ∧ dictGet dm "description" = mergedField descr Val.vstr (dictGet d "description")
      ∧ dictGet dm "showOrder" = mergedField so Val.vint (dictGet d "showOrder")
      ∧ dictGet dm "active" = mergedField act Val.vbool (dictGet d "active")
      ∧ (∀ k, ¬ k = "name" → ¬ k = "description" → ¬ k = "showOrder" → ¬ k = "active" →
           dictGet dm k = dictGet d k))
∧   (∀ (O : Oracle) (s : ConnState) (n : Int) (name : Option String) (descr : Option String) (ccid : Option Int) (so : Option Int) (act : Option Bool)
      (d : List (String × Val)) (s1 : ConnState),
      get O ("collectionInstances/" ++ toString n) s = (Except.ok (Val.vdict d), s1) →
      ∃ dm : List (String × Val),
        updateCollectionInstance O (some n) name descr ccid so act s = put O "collectionInstances" (Val.vdict dm) s1
      ∧ ((put O "collectionInstances" (Val.vdict dm) s1).2).log
          = Request.mk Method.PUT "collectionInstances" s1.cookieToken (some (Val.vdict dm))
            :: Request.mk Method.GET ("collectionInstances/" ++ toString n) s.cookieToken none :: s.log
      ∧ dictGet dm "name" = mergedField name Val.vstr (dictGet d "name")
      ∧ dictGet dm "description" = mergedField descr Val.vstr (dictGet d "description")
      ∧ dictGet dm "showOrder" = mergedField so Val.vint (dictGet d "showOrder")
      ∧ dictGet dm "active" = mergedField act Val.vbool (dictGet d "active")
      ∧ dictGet dm "collectionCategory" = mergedField ccid idRef (dictGet d "collectionCategory")
      ∧ (∀ k, ¬ k = "name" → ¬ k = "description" → ¬ k = "showOrder" → ¬ k = "active" → ¬ k = "collectionCategory" →
           dictGet dm k = dictGet d k))
∧   (∀ (O : Oracle) (s : ConnState) (n : Int) (name : Option String) (descr : Option String) (so : Option Int) (act : Option Bool)
      (d : List (String × Val)) (s1 : ConnState),
      get O ("tagCategorys/" ++ toString n) s = (Except.ok (Val.vdict d), s1) →
      ∃ dm : List (String × Val),
        updateTagCategory O (some n) name descr so act s = put O "tagCategorys" (Val.vdict dm) s1
      ∧ ((put O "tagCategorys" (Val.vdict dm) s1).2).log
          = Request.mk Method.PUT "tagCategorys" s1.cookieToken (some (Val.vdict dm))
            :: Request.mk Method.GET ("tagCategorys/" ++ toString n) s.cookieToken none :: s.log
      ∧ dictGet dm "name" = mergedField name Val.vstr (dictGet d "name")
      ∧ dictGet dm "description" = mergedField descr Val.vstr (dictGet d "description")
      ∧ dictGet dm "showOrder" = mergedField so Val.vint (dictGet d "showOrder")
      ∧ dictGet dm "active" = mergedField act Val.vbool (dictGet d "active")
      ∧ (∀ k, ¬ k = "name" → ¬ k = "description" → ¬ k = "showOrder" → ¬ k = "active" →
           dictGet dm k = dictGet d k))
∧   (∀ (O : Oracle) (s : ConnState) (n : Int) (name : Option String) (descr : Option String) (tcid : Option Int) (so : Option Int) (act : Option Bool)
      (d : List (String × Val)) (s1 : ConnState),
      get O ("tagInstances/" ++ toString n) s = (Except.ok (Val.vdict d), s1) →
      ∃ dm : List (String × Val),
        updateTagInstance O (some n) name descr tcid so act s = put O "tagInstances" (Val.vdict dm) s1
      ∧ ((put O "tagInstances" (Val.vdict dm) s1).2).log
          = Request.mk Method.PUT "tagInstances" s1.cookieToken (some (Val.vdict dm))
            :: Request.mk Method.GET ("tagInstances/" ++ toString n) s.cookieToken none :: s.log
      ∧ dictGet dm "name" = mergedField name Val.vstr (dictGet d "name")
      ∧ dictGet dm "description" = mergedField descr Val.vstr (dictGet d "description")
      ∧ dictGet dm "showOrder" = mergedField so Val.vint (dictGet d "showOrder")
      ∧ dictGet dm "active" = mergedField act Val.vbool (dictGet d "active")
      ∧ dictGet dm "tagCategory" = mergedField tcid idRef (dictGet d "tagCategory")
      ∧ (∀ k, ¬ k = "name" → ¬ k = "description" → ¬ k = "showOrder" → ¬ k = "active" → ¬ k = "tagCategory" →
           dictGet dm k = dictGet d k))
∧   (∀ (O : Oracle) (s : ConnState) (n : Int) (name : Option String) (shortcut : Option String) (descr : Option String) (so : Option Int) (act : Option Bool)
      (d : List (String × Val)) (s1 : ConnState),
      get O ("reqCategorys/" ++ toString n) s = (Except.ok (Val.vdict d), s1) →
      ∃ dm : List (String × Val),
        updateRequirementCategory O (some n) name shortcut descr so act s = put O "reqCategorys" (Val.vdict dm) s1
      ∧ ((put O "reqCategorys" (Val.vdict dm) s1).2).log
          = Request.mk Method.PUT "reqCategorys" s1.cookieToken (some (Val.vdict dm))
            :: Request.mk Method.GET ("reqCategorys/" ++ toString n) s.cookieToken none :: s.log
      ∧ dictGet dm "name" = mergedField name Val.vstr (dictGet d "name")
      ∧ dictGet dm "description" = mergedField descr Val.vstr (dictGet d "description")
      ∧ dictGet dm "showOrder" = mergedField so Val.vint (dictGet d "showOrder")
      ∧ dictGet dm "active" = mergedField act Val.vbool (dictGet d "active")
      ∧ dictGet dm "shortcut" = mergedField shortcut Val.vstr (dictGet d "shortcut")
      ∧ (∀ k, ¬ k = "name" → ¬ k = "description" → ¬ k = "showOrder" → ¬ k = "active" → ¬ k = "shortcut" →
           dictGet dm k = dictGet d k))
∧   (∀ (O : Oracle) (s : ConnState) (n : Int) (sn : Option String) (descr : Option String) (rc : Option Int) (ci : Option (List Int)) (ti : Option (List Int)) (pt : Option (List Int)) (so : Option Int) (act : Option Bool) (uid : Option String)
      (d : List (String × Val)) (s1 : ConnState),
      get O ("requirementSkeletons/" ++ toString n) s = (Except.ok (Val.vdict d), s1) →
      ∃ dm : List (String × Val),
        updateRequirementSkeleton O (some n) sn descr rc ci ti pt so act uid s = put O "requirementSkeletons" (Val.vdict dm) s1
      ∧ ((put O "requirementSkeletons" (Val.vdict dm) s1).2).log
          = Request.mk Method.PUT "requirementSkeletons" s1.cookieToken (some (Val.vdict dm))
            :: Request.mk Method.GET ("requirementSkeletons/" ++ toString n) s.cookieToken none :: s.log
      ∧ dictGet dm "description" = mergedField descr Val.vstr (dictGet d "description")
      ∧ dictGet dm "showOrder" = mergedField so Val.vint (dictGet d "showOrder")
      ∧ dictGet dm "active" = mergedField act Val.vbool (dictGet d "active")
      ∧ dictGet dm "shortName" = mergedField sn Val.vstr (dictGet d "shortName")
      ∧ dictGet dm "reqCategory" = mergedField rc idRef (dictGet d "reqCategory")
      ∧ dictGet dm "collectionInstances" = mergedField ci idList (dictGet d "collectionInstances")
      ∧ dictGet dm "tagInstances" = mergedField ti idList (dictGet d "tagInstances")
      ∧ dictGet dm "projectTypes" = mergedField pt idList (dictGet d "projectTypes")
      ∧ dictGet dm "universalId" = mergedField uid Val.vstr (dictGet d "universalId")
      ∧ (∀ k, ¬ k = "description" → ¬ k = "showOrder" → ¬ k = "active" → ¬ k = "shortName" → ¬ k = "reqCategory" → ¬ k = "collectionInstances" → ¬ k = "tagInstances" → ¬ k = "projectTypes" → ¬ k = "universalId" →
           dictGet dm k = dictGet d k))
∧   (∀ (O : Oracle) (s : ConnState) (n : Int) (name : Option String) (descr : Option String)
      (d : List (String × Val)) (s1 : ConnState),
      get O ("optColumnTypes/" ++ toString n) s = (Except.ok (Val.vdict d), s1) →
      ∃ dm : List (String × Val),
        updateOptColumnType O (some n) name descr s = put O "optColumnTypes" (Val.vdict dm) s1
      ∧ ((put O "optColumnTypes" (Val.vdict dm) s1).2).log
          = Request.mk Method.PUT "optColumnTypes" s1.cookieToken (some (Val.vdict dm))
            :: Request.mk Method.GET ("optColumnTypes/" ++ toString n) s.cookieToken none :: s.log
      ∧ dictGet dm "name" = mergedField name Val.vstr (dictGet d "name")
      ∧ dictGet dm "description" = mergedField descr Val.vstr (dictGet d "description")
      ∧ (∀ k, ¬ k = "name" → ¬ k = "description" →
           dictGet dm k = dictGet d k))
∧   (∀ (O : Oracle) (s : ConnState) (n : Int) (name : Option String) (descr : Option String) (octid : Option Int) (so : Option Int) (act : Option Bool) (ivbd : Option Bool)
      (d : List (String × Val)) (s1 : ConnState),
      get O ("optColumns/" ++ toString n) s = (Except.ok (Val.vdict d), s1) →
      ∃ dm : List (String × Val),
        updateOptColumn O (some n) name descr octid so act ivbd s = put O "optColumns" (Val.vdict dm) s1
      ∧ ((put O "optColumns" (Val.vdict dm) s1).2).log
          = Request.mk Method.PUT "optColumns" s1.cookieToken (some (Val.vdict dm))
            :: Request.mk Method.GET ("optColumns/" ++ toString n) s.cookieToken none :: s.log
      ∧ dictGet dm "name" = mergedField name Val.vstr (dictGet d "name")
      ∧ dictGet dm "description" = mergedField descr Val.vstr (dictGet d "description")
      ∧ dictGet dm "showOrder" = mergedField so Val.vint (dictGet d "showOrder")
      ∧ dictGet dm "active" = mergedField act Val.vbool (dictGet d "active")
      ∧ dictGet dm "optColumnType" = mergedField octid idRef (dictGet d "optColumnType")
      ∧ dictGet dm "isVisibleByDefault" = mergedField ivbd Val.vbool (dictGet d "isVisibleByDefault")
      ∧ (∀ k, ¬ k = "name" → ¬ k = "description" → ¬ k = "showOrder" → ¬ k = "active" → ¬ k = "optColumnType" → ¬ k = "isVisibleByDefault" →
           dictGet dm k = dictGet d k))
∧   (∀ (O : Oracle) (s : ConnState) (n : Int) (content : Option String) (ocid : Option Int) (rsid : Option Int)
      (d : List (String × Val)) (s1 : ConnState),
      get O ("optColumnContents/" ++ toString n) s = (Except.ok (Val.vdict d), s1) →
      ∃ dm : List (String × Val),
        updateOptColumnContent O (some n) content ocid rsid s = put O "optColumnContents" (Val.vdict dm) s1
      ∧ ((put O "optColumnContents" (Val.vdict dm) s1).2).log
          = Request.mk Method.PUT "optColumnContents" s1.cookieToken (some (Val.vdict dm))
            :: Request.mk Method.GET ("optColumnContents/" ++ toString n) s.cookieToken none :: s.log
      ∧ dictGet dm "content" = mergedField content Val.vstr (dictGet d "content")
      ∧ dictGet dm "optColumn" = mergedField ocid idRef (dictGet d "optColumn")
      ∧ dictGet dm "requirementSkeleton" = mergedField rsid idRef (dictGet d "requirementSkeleton")
      ∧ (∀ k, ¬ k = "content" → ¬ k = "optColumn" → ¬ k = "requirementSkeleton" →
           dictGet dm k = dictGet d k))
∧   (∀ (O : Oracle) (s : ConnState) (n : Int) (name : Option String) (descr : Option String) (scids : Option (List Int)) (ocids : Option (List Int)) (so : Option Int) (act : Option Bool)
      (d : List (String × Val)) (s1 : ConnState),
      get O ("projectTypes/" ++ toString n) s = (Except.ok (Val.vdict d), s1) →
      ∃ dm : List (String × Val),
        updateProjectType O (some n) name descr scids ocids so act s = put O "projectTypes" (Val.vdict dm) s1
      ∧ ((put O "projectTypes" (Val.vdict dm) s1).2).log
          = Request.mk Method.PUT "projectTypes" s1.cookieToken (some (Val.vdict dm))
            :: Request.mk Method.GET ("projectTypes/" ++ toString n) s.cookieToken none :: s.log
      ∧ dictGet dm "name" = mergedField name Val.vstr (dictGet d "name")
      ∧ dictGet dm "description" = mergedField descr Val.vstr (dictGet d "description")
      ∧ dictGet dm "showOrder" = mergedField so Val.vint (dictGet d "showOrder")
      ∧ dictGet dm "active" = mergedField act Val.vbool (dictGet d "active")
      ∧ dictGet dm "optColumns" = mergedField ocids idList (dictGet d "optColumns")
      ∧ dictGet dm "statusColumns" = mergedField scids idList (dictGet d "statusColumns")
      ∧ (∀ k, ¬ k = "name" → ¬ k = "description" → ¬ k = "showOrder" → ¬ k = "active" → ¬ k = "optColumns" → ¬ k = "statusColumns" →
           dictGet dm k = dictGet d k)) := by
  refine ⟨?_, ?_, ?_, ?_, ?_, ?_, ?_, ?_, ?_, ?_⟩
  · intro O s n name descr so act d s1 hget
    refine ⟨applyOptD act Val.vbool "active" (applyOptD so Val.vint "showOrder" (applyOptD descr Val.vstr "description" (applyOptD name Val.vstr "name" (d)))), ?_, ?_, ?_, ?_, ?_, ?_, ?_⟩
    · unfold updateCollectionCategory getCollectionCategory
      dsimp only
      rw [hget]
      dsimp only
      simp only [applyOpt_vdict]
    · have hlog : s1.log
          = Request.mk Method.GET ("collectionCategorys/" ++ toString n) s.cookieToken none :: s.log := by
        have hst := get_state O ("collectionCategorys/" ++ toString n) s
        rw [hget] at hst
        simp only at hst
        rw [hst]
      rw [put_log, hlog]
    · simp [dictGet_applyOptD]
    · simp [dictGet_applyOptD]
    · simp [dictGet_applyOptD]
    · simp [dictGet_applyOptD]
    · intro k h1 h2 h3 h4
      have h1s : ¬ "name" = k := fun hh => h1 hh.symm
      have h2s : ¬ "description" = k := fun hh => h2 hh.symm
      have h3s : ¬ "showOrder" = k := fun hh => h3 hh.symm
      have h4s : ¬ "active" = k := fun hh => h4 hh.symm
      simp [dictGet_applyOptD, h1s, h2s, h3s, h4s]
  · intro O s n name descr ccid so act d s1 hget
    refine ⟨applyOptD ccid idRef "collectionCategory" (applyOptD act Val.vbool "active" (applyOptD so Val.vint "showOrder" (applyOptD descr Val.vstr "description" (applyOptD name Val.vstr "name" (d))))), ?_, ?_, ?_, ?_, ?_, ?_, ?_, ?_⟩
    · unfold updateCollectionInstance getCollectionInstance
      dsimp only
      rw [hget]
      dsimp only
      simp only [applyOpt_vdict]
    · have hlog : s1.log
          = Request.mk Method.GET ("collectionInstances/" ++ toString n) s.cookieToken none :: s.log := by
        have hst := get_state O ("collectionInstances/" ++ toString n) s
        rw [hget] at hst
        simp only at hst
        rw [hst]
      rw [put_log, hlog]
    · simp [dictGet_applyOptD]
    · simp [dictGet_applyOptD]
    · simp [dictGet_applyOptD]
    · simp [dictGet_applyOptD]
    · simp [dictGet_applyOptD]
    · intro k h1 h2 h3 h4 h5
      have h1s : ¬ "name" = k := fun hh => h1 hh.symm
      have h2s : ¬ "description" = k := fun hh => h2 hh.symm
      have h3s : ¬ "showOrder" = k := fun hh => h3 hh.symm
      have h4s : ¬ "active" = k := fun hh => h4 hh.symm
      have h5s : ¬ "collectionCategory" = k := fun hh => h5 hh.symm
      simp [dictGet_applyOptD, h1s, h2s, h3s, h4s, h5s]
  · intro O s n name descr so act d s1 hget
    refine ⟨applyOptD act Val.vbool "active" (applyOptD so Val.vint "showOrder" (applyOptD descr Val.vstr "description" (applyOptD name Val.vstr "name" (d)))), ?_, ?_, ?_, ?_, ?_, ?_, ?_⟩
    · unfold updateTagCategory getTagCategory
      dsimp only
      rw [hget]
      dsimp only
      simp only [applyOpt_vdict]
    · have hlog : s1.log
          = Request.mk Method.GET ("tagCategorys/" ++ toString n) s.cookieToken none :: s.log := by
        have hst := get_state O ("tagCategorys/" ++ toString n) s
        rw [hget] at hst
        simp only at hst
        rw [hst]
      rw [put_log, hlog]
    · simp [dictGet_applyOptD]
    · simp [dictGet_applyOptD]
    · simp [dictGet_applyOptD]
    · simp [dictGet_applyOptD]
    · intro k h1 h2 h3 h4
      have h1s : ¬ "name" = k := fun hh => h1 hh.symm
      have h2s : ¬ "description" = k := fun hh => h2 hh.symm
      have h3s : ¬ "showOrder" = k := fun hh => h3 hh.symm
      have h4s : ¬ "active" = k := fun hh => h4 hh.symm
      simp [dictGet_applyOptD, h1s, h2s, h3s, h4s]
  · intro O s n name descr tcid so act d s1 hget
    refine ⟨applyOptD tcid idRef "tagCategory" (applyOptD act Val.vbool "active" (applyOptD so Val.vint "showOrder" (applyOptD descr Val.vstr "description" (applyOptD name Val.vstr "name" (d))))), ?_, ?_, ?_, ?_, ?_, ?_, ?_, ?_⟩
    · unfold updateTagInstance getTagInstance
      dsimp only
      rw [hget]
      dsimp only
      simp only [applyOpt_vdict]
    · have hlog : s1.log
          = Request.mk Method.GET ("tagInstances/" ++ toString n) s.cookieToken none :: s.log := by
        have hst := get_state O ("tagInstances/" ++ toString n) s
        rw [hget] at hst
        simp only at hst
        rw [hst]
      rw [put_log, hlog]
    · simp [dictGet_applyOptD]
    · simp [dictGet_applyOptD]
    · simp [dictGet_applyOptD]
    · simp [dictGet_applyOptD]
    · simp [dictGet_applyOptD]
    · intro k h1 h2 h3 h4 h5
      have h1s : ¬ "name" = k := fun hh => h1 hh.symm
      have h2s : ¬ "description" = k := fun hh => h2 hh.symm
      have h3s : ¬ "showOrder" = k := fun hh => h3 hh.symm
      have h4s : ¬ "active" = k := fun hh => h4 hh.symm
      have h5s : ¬ "tagCategory" = k := fun hh => h5 hh.symm
      simp [dictGet_applyOptD, h1s, h2s, h3s, h4s, h5s]
  · intro O s n name shortcut descr so act d s1 hget
    refine ⟨applyOptD shortcut Val.vstr "shortcut" (applyOptD act Val.vbool "active" (applyOptD so Val.vint "showOrder" (applyOptD descr Val.vstr "description" (applyOptD name Val.vstr "name" (d))))), ?_, ?_, ?_, ?_, ?_, ?_, ?_, ?_⟩
    · unfold updateRequirementCategory getRequirementCategory
      dsimp only
      rw [hget]
      dsimp only
      simp only [applyOpt_vdict]
    · have hlog : s1.log
          = Request.mk Method.GET ("reqCategorys/" ++ toString n) s.cookieToken none :: s.log := by
        have hst := get_state O ("reqCategorys/" ++ toString n) s
        rw [hget] at hst
        simp only at hst
        rw [hst]
      rw [put_log, hlog]
    · simp [dictGet_applyOptD]
    · simp [dictGet_applyOptD]
    · simp [dictGet_applyOptD]
    · simp [dictGet_applyOptD]
    · simp [dictGet_applyOptD]
    · intro k h1 h2 h3 h4 h5
      have h1s : ¬ "name" = k := fun hh => h1 hh.symm
      have h2s : ¬ "description" = k := fun hh => h2 hh.symm
      have h3s : ¬ "showOrder" = k := fun hh => h3 hh.symm
      have h4s : ¬ "active" = k := fun hh => h4 hh.symm
      have h5s : ¬ "shortcut" = k := fun hh => h5 hh.symm
      simp [dictGet_applyOptD, h1s, h2s, h3s, h4s, h5s]
  · intro O s n sn descr rc ci ti pt so act uid d s1 hget
    refine ⟨applyOptD uid Val.vstr "universalId" (applyOptD pt idList "projectTypes" (applyOptD ti idList "tagInstances" (applyOptD ci idList "collectionInstances" (applyOptD rc idRef "reqCategory" (applyOptD sn Val.vstr "shortName" (applyOptD act Val.vbool "active" (applyOptD so Val.vint "showOrder" (applyOptD descr Val.vstr "description" (d))))))))), ?_, ?_, ?_, ?_, ?_, ?_, ?_, ?_, ?_, ?_, ?_, ?_⟩
    · unfold updateRequirementSkeleton getRequirementSkeleton
      dsimp only
      rw [hget]
      dsimp only
      simp only [applyOpt_vdict]
    · have hlog : s1.log
          = Request.mk Method.GET ("requirementSkeletons/" ++ toString n) s.cookieToken none :: s.log := by
        have hst := get_state O ("requirementSkeletons/" ++ toString n) s
        rw [hget] at hst
        simp only at hst
        rw [hst]
      rw [put_log, hlog]
    · simp [dictGet_applyOptD]
    · simp [dictGet_applyOptD]
    · simp [dictGet_applyOptD]
    · simp [dictGet_applyOptD]
    · simp [dictGet_applyOptD]
    · simp [dictGet_applyOptD]
    · simp [dictGet_applyOptD]
    · simp [dictGet_applyOptD]
    · simp [dictGet_applyOptD]
    · intro k h1 h2 h3 h4 h5 h6 h7 h8 h9
      have h1s : ¬ "description" = k := fun hh => h1 hh.symm
      have h2s : ¬ "showOrder" = k := fun hh => h2 hh.symm
      have h3s : ¬ "active" = k := fun hh => h3 hh.symm
      have h4s : ¬ "shortName" = k := fun hh => h4 hh.symm
      have h5s : ¬ "reqCategory" = k := fun hh => h5 hh.symm
      have h6s : ¬ "collectionInstances" = k := fun hh => h6 hh.symm
      have h7s : ¬ "tagInstances" = k := fun hh => h7 hh.symm
      have h8s : ¬ "projectTypes" = k := fun hh => h8 hh.symm
      have h9s : ¬ "universalId" = k := fun hh => h9 hh.symm
      simp [dictGet_applyOptD, h1s, h2s, h3s, h4s, h5s, h6s, h7s, h8s, h9s]
  · intro O s n name descr d s1 hget
    refine ⟨applyOptD descr Val.vstr "description" (applyOptD name Val.vstr "name" (d)), ?_, ?_, ?_, ?_, ?_⟩
    · unfold updateOptColumnType getOptColumnType
      dsimp only
      rw [hget]
      dsimp only
      simp only [applyOpt_vdict]
    · have hlog : s1.log
          = Request.mk Method.GET ("optColumnTypes/" ++ toString n) s.cookieToken none :: s.log := by
        have hst := get_state O ("optColumnTypes/" ++ toString n) s
        rw [hget] at hst
        simp only at hst
        rw [hst]
      rw [put_log, hlog]
    · simp [dictGet_applyOptD]
    · simp [dictGet_applyOptD]
    · intro k h1 h2
      have h1s : ¬ "name" = k := fun hh => h1 hh.symm
      have h2s : ¬ "description" = k := fun hh => h2 hh.symm
      simp [dictGet_applyOptD, h1s, h2s]
  · intro O s n name descr octid so act ivbd d s1 hget
    refine ⟨applyOptD ivbd Val.vbool "isVisibleByDefault" (applyOptD octid idRef "optColumnType" (applyOptD act Val.vbool "active" (applyOptD so Val.vint "showOrder" (applyOptD descr Val.vstr "description" (applyOptD name Val.vstr "name" (d)))))), ?_, ?_, ?_, ?_, ?_, ?_, ?_, ?_, ?_⟩
    · unfold updateOptColumn getOptColumn
      dsimp only
      rw [hget]
      dsimp only
      simp only [applyOpt_vdict]
    · have hlog : s1.log
          = Request.mk Method.GET ("optColumns/" ++ toString n) s.cookieToken none :: s.log := by
        have hst := get_state O ("optColumns/" ++ toString n) s
        rw [hget] at hst
        simp only at hst
        rw [hst]
      rw [put_log, hlog]
    · simp [dictGet_applyOptD]
    · simp [dictGet_applyOptD]
    · simp [dictGet_applyOptD]
    · simp [dictGet_applyOptD]
    · simp [dictGet_applyOptD]
    · simp [dictGet_applyOptD]
    · intro k h1 h2 h3 h4 h5 h6
      have h1s : ¬ "name" = k := fun hh => h1 hh.symm
      have h2s : ¬ "description" = k := fun hh => h2 hh.symm
      have h3s : ¬ "showOrder" = k := fun hh => h3 hh.symm
      have h4s : ¬ "active" = k := fun hh => h4 hh.symm
      have h5s : ¬ "optColumnType" = k := fun hh => h5 hh.symm
      have h6s : ¬ "isVisibleByDefault" = k := fun hh => h6 hh.symm
      simp [dictGet_applyOptD, h1s, h2s, h3s, h4s, h5s, h6s]
  · intro O s n content ocid rsid d s1 hget
    refine ⟨applyOptD rsid idRef "requirementSkeleton" (applyOptD ocid idRef "optColumn" (applyOptD content Val.vstr "content" (d))), ?_, ?_, ?_, ?_, ?_, ?_⟩
    · unfold updateOptColumnContent getOptColumnContent
      dsimp only
      rw [hget]
      dsimp only
      simp only [applyOpt_vdict]
    · have hlog : s1.log
          = Request.mk Method.GET ("optColumnContents/" ++ toString n) s.cookieToken none :: s.log := by
        have hst := get_state O ("optColumnContents/" ++ toString n) s
        rw [hget] at hst
        simp only at hst
        rw [hst]
      rw [put_log, hlog]
    · simp [dictGet_applyOptD]
    · simp [dictGet_applyOptD]
    · simp [dictGet_applyOptD]
    · intro k h1 h2 h3
      have h1s : ¬ "content" = k := fun hh => h1 hh.symm
      have h2s : ¬ "optColumn" = k := fun hh => h2 hh.symm
      have h3s : ¬ "requirementSkeleton" = k := fun hh => h3 hh.symm
      simp [dictGet_applyOptD, h1s, h2s, h3s]
  · intro O s n name descr scids ocids so act d s1 hget
    refine ⟨applyOptD scids idList "statusColumns" (applyOptD ocids idList "optColumns" (applyOptD act Val.vbool "active" (applyOptD so Val.vint "showOrder" (applyOptD descr Val.vstr "description" (applyOptD name Val.vstr "name" (d)))))), ?_, ?_, ?_, ?_, ?_, ?_, ?_, ?_, ?_⟩
    · unfold updateProjectType getProjectType
      dsimp only
      rw [hget]
      dsimp only
      simp only [applyOpt_vdict]
    · have hlog : s1.log
          = Request.mk Method.GET ("projectTypes/" ++ toString n) s.cookieToken none :: s.log := by
        have hst := get_state O ("projectTypes/" ++ toString n) s
        rw [hget] at hst
        simp only at hst
        rw [hst]
      rw [put_log, hlog]
    · simp [dictGet_applyOptD]
    · simp [dictGet_applyOptD]
    · simp [dictGet_applyOptD]
    · simp [dictGet_applyOptD]
    · simp [dictGet_applyOptD]
    · simp [dictGet_applyOptD]
    · intro k h1 h2 h3 h4 h5 h6
      have h1s : ¬ "name" = k := fun hh => h1 hh.symm
      have h2s : ¬ "description" = k := fun hh => h2 hh.symm
      have h3s : ¬ "showOrder" = k := fun hh => h3 hh.symm
      have h4s : ¬ "active" = k := fun hh => h4 hh.symm
      have h5s : ¬ "optColumns" = k := fun hh => h5 hh.symm
      have h6s : ¬ "statusColumns" = k := fun hh => h6 hh.symm
      simp [dictGet_applyOptD, h1s, h2s, h3s, h4s, h5s, h6s]

theorem C9_update_fetch_merge_put_witness :
    get wOrec ("collectionCategorys/" ++ toString (3 : Int)) wS
      = (Except.ok (Val.vdict wRec), wS1g)
  ∧ (∃ dm : List (String × Val),
        updateCollectionCategory wOrec (some 3) (some "new") none none none wS
          = put wOrec "collectionCategorys" (Val.vdict dm) wS1g
      ∧ dictGet dm "name" = mergedField (some "new") Val.vstr (dictGet wRec "name")
      ∧ dictGet dm "description"
          = mergedField (none : Option String) Val.vstr (dictGet wRec "description")) := by
  refine ⟨rfl, ?_⟩
  obtain ⟨dm, h1, hlog, hname, hdesc, hshow, hact, hframe⟩ :=
    C9_update_fetch_merge_put.1 wOrec wS 3 (some "new") none none none wRec wS1g rfl
  exact ⟨dm, h1, hname, hdesc⟩

end SecurityRatConnector
